import Mathlib

/-!
Verification development for the `tourism_data` schema of verde-pop-project
(`apps/tourism_data/models.py`).

The source declares five record types and their storage constraints:
uniqueness keys (`unique_together`, `unique=True`), one-to-one references
(`OneToOneField`, i.e. a foreign key that is itself unique), and deletion
behaviour (`on_delete=SET_NULL` for `DailyTouristSummary.weather_summary_fk`,
`on_delete=CASCADE` for `BeachAttendancePrediction.tourist_summary_fk`).
The source contains no operational code: the create/delete operations below
give those declarations their standard storage-layer semantics, modelled from
the specification's words ("inserting two ... is rejected", "nulled on weather
deletion", "deleted together with it", invariants "enforced by the underlying
storage layer").

Modelling choices:
- `CharField`/`TextField` values are `String` (declared length caps are not
  modelled: the schema's uniqueness and referential behaviour never reads
  them); `DateField`, `DateTimeField` and `TimeField` values are abstract
  instants represented as `Nat`; `FloatField` values are represented as `Rat`
  (no arithmetic is ever performed on them, they are only stored and
  compared); `JSONField` payloads are kept abstract as their serialized
  `String` form, never inspected.
- `null=True` columns are `Option`-typed; non-null columns are plain.
- The implicit auto-increment primary key `id` is a `Nat` drawn from a
  database-wide counter `nextId`; `auto_now_add` timestamps take the
  current time as an explicit `now` argument.
- A database state is one list per table; an insert is rejected (returns
  `none`, leaving the state unchanged) exactly when a declared uniqueness
  key collides with a stored row or a non-null reference does not resolve.
-/

namespace TourismData

/-- A stored `FlightArrival` row (`models.py` lines 4-26). -/
structure FlightArrival where
  id : Nat
  flight_number : String
  airline_name : Option String
  origin_airport_code : String
  origin_city : Option String
  scheduled_arrival_dt : Nat
  actual_arrival_dt : Option Nat
  aircraft_type : Option String
  estimated_passengers : Option Int
  data_source : Option String
  scraped_at : Nat
deriving DecidableEq

/-- A stored `CruiseArrival` row (`models.py` lines 28-48). -/
structure CruiseArrival where
  id : Nat
  ship_name : String
  cruise_line_name : Option String
  scheduled_arrival_date : Nat
  scheduled_arrival_time : Option Nat
  scheduled_departure_date : Option Nat
  scheduled_departure_time : Option Nat
  passenger_capacity_double : Option Int
  estimated_passengers : Option Int
  data_source : Option String
  scraped_at : Nat
deriving DecidableEq

/-- A stored `DailyWeather` row (`models.py` lines 50-76). -/
structure DailyWeather where
  id : Nat
  forecast_date : Nat
  location_name : String
  latitude : Option Rat
  longitude : Option Rat
  sunrise_time : Option Nat
  sunset_time : Option Nat
  hourly_forecasts : String
  daily_condition_summary : Option String
  daily_temp_max_c : Option Rat
  daily_temp_min_c : Option Rat
  daily_avg_precip_prob : Option Rat
  daily_total_precip_mm : Option Rat
  data_source : Option String
  fetched_at : Nat
deriving DecidableEq

/-- A stored `DailyTouristSummary` row (`models.py` lines 78-91).
`weather_summary_fk` is a nullable one-to-one reference to a
`DailyWeather.id` (`on_delete=SET_NULL`). -/
structure DailyTouristSummary where
  id : Nat
  summary_date : Nat
  total_estimated_flight_passengers : Int
  total_estimated_cruise_passengers : Int
  overall_tourist_pressure_index : Option Rat
  weather_summary_fk : Option Nat
  day_type : Option String
  calculated_at : Nat
deriving DecidableEq

/-- A stored `BeachAttendancePrediction` row (`models.py` lines 93-112).
`tourist_summary_fk` is a mandatory (non-null) one-to-one reference to a
`DailyTouristSummary.id` (`on_delete=CASCADE`); `probability_score` is a
plain float column with no range constraint declared. -/
structure BeachAttendancePrediction where
  id : Nat
  prediction_date : Nat
  tourist_summary_fk : Nat
  probability_score : Rat
  prediction_category : Option String
  input_features_json : String
  model_version : Option String
  predicted_at : Nat
deriving DecidableEq

/-- The caller-supplied fields of a `FlightArrival` creation (everything but
the auto primary key and the `auto_now_add` timestamp). -/
structure FlightArrivalInput where
  flight_number : String
  airline_name : Option String
  origin_airport_code : String
  origin_city : Option String
  scheduled_arrival_dt : Nat
  actual_arrival_dt : Option Nat
  aircraft_type : Option String
  estimated_passengers : Option Int
  data_source : Option String
deriving DecidableEq

/-- The caller-supplied fields of a `CruiseArrival` creation. -/
structure CruiseArrivalInput where
  ship_name : String
  cruise_line_name : Option String
  scheduled_arrival_date : Nat
  scheduled_arrival_time : Option Nat
  scheduled_departure_date : Option Nat
  scheduled_departure_time : Option Nat
  passenger_capacity_double : Option Int
  estimated_passengers : Option Int
  data_source : Option String
deriving DecidableEq

/-- The caller-supplied fields of a `DailyWeather` creation. -/
structure DailyWeatherInput where
  forecast_date : Nat
  location_name : String
  latitude : Option Rat
  longitude : Option Rat
  sunrise_time : Option Nat
  sunset_time : Option Nat
  hourly_forecasts : String
  daily_condition_summary : Option String
  daily_temp_max_c : Option Rat
  daily_temp_min_c : Option Rat
  daily_avg_precip_prob : Option Rat
  daily_total_precip_mm : Option Rat
  data_source : Option String
deriving DecidableEq

/-- The caller-supplied fields of a `DailyTouristSummary` creation. -/
structure DailyTouristSummaryInput where
  summary_date : Nat
  total_estimated_flight_passengers : Int
  total_estimated_cruise_passengers : Int
  overall_tourist_pressure_index : Option Rat
  weather_summary_fk : Option Nat
  day_type : Option String
deriving DecidableEq

/-- The caller-supplied fields of a `BeachAttendancePrediction` creation. -/
structure BeachAttendancePredictionInput where
  prediction_date : Nat
  tourist_summary_fk : Nat
  probability_score : Rat
  prediction_category : Option String
  input_features_json : String
  model_version : Option String
deriving DecidableEq

/-- The stored state: one list of rows per table, plus the shared
auto-increment counter for primary keys. -/
structure DB where
  nextId : Nat
  flights : List FlightArrival
  cruises : List CruiseArrival
  weather : List DailyWeather
  summaries : List DailyTouristSummary
  predictions : List BeachAttendancePrediction
deriving DecidableEq

/-- The empty database. -/
def emptyDB : DB := ⟨0, [], [], [], [], []⟩

/-- Create a `FlightArrival`. Rejected exactly when a stored row collides on
the declared key `unique_together = (flight_number, scheduled_arrival_dt,
data_source)` (`models.py` line 23). -/
def insertFlightArrival (db : DB) (now : Nat) (inp : FlightArrivalInput) :
    Option DB :=
  if ∃ r ∈ db.flights,
      r.flight_number = inp.flight_number ∧
      r.scheduled_arrival_dt = inp.scheduled_arrival_dt ∧
      r.data_source = inp.data_source then
    none
  else
    some { db with
      nextId := db.nextId + 1,
      flights := db.flights ++
        [{ id := db.nextId,
           flight_number := inp.flight_number,
           airline_name := inp.airline_name,
           origin_airport_code := inp.origin_airport_code,
           origin_city := inp.origin_city,
           scheduled_arrival_dt := inp.scheduled_arrival_dt,
           actual_arrival_dt := inp.actual_arrival_dt,
           aircraft_type := inp.aircraft_type,
           estimated_passengers := inp.estimated_passengers,
           data_source := inp.data_source,
           scraped_at := now }] }

/-- Create a `CruiseArrival`. Rejected exactly when a stored row collides on
`unique_together = (ship_name, scheduled_arrival_date, data_source)`
(`models.py` line 45). -/
def insertCruiseArrival (db : DB) (now : Nat) (inp : CruiseArrivalInput) :
    Option DB :=
  if ∃ r ∈ db.cruises,
      r.ship_name = inp.ship_name ∧
      r.scheduled_arrival_date = inp.scheduled_arrival_date ∧
      r.data_source = inp.data_source then
    none
  else
    some { db with
      nextId := db.nextId + 1,
      cruises := db.cruises ++
        [{ id := db.nextId,
           ship_name := inp.ship_name,
           cruise_line_name := inp.cruise_line_name,
           scheduled_arrival_date := inp.scheduled_arrival_date,
           scheduled_arrival_time := inp.scheduled_arrival_time,
           scheduled_departure_date := inp.scheduled_departure_date,
           scheduled_departure_time := inp.scheduled_departure_time,
           passenger_capacity_double := inp.passenger_capacity_double,
           estimated_passengers := inp.estimated_passengers,
           data_source := inp.data_source,
           scraped_at := now }] }

/-- Create a `DailyWeather`. Rejected exactly when a stored row collides on
`unique_together = (forecast_date, location_name, data_source)`
(`models.py` line 73). -/
def insertDailyWeather (db : DB) (now : Nat) (inp : DailyWeatherInput) :
    Option DB :=
  if ∃ r ∈ db.weather,
      r.forecast_date = inp.forecast_date ∧
      r.location_name = inp.location_name ∧
      r.data_source = inp.data_source then
    none
  else
    some { db with
      nextId := db.nextId + 1,
      weather := db.weather ++
        [{ id := db.nextId,
           forecast_date := inp.forecast_date,
           location_name := inp.location_name,
           latitude := inp.latitude,
           longitude := inp.longitude,
           sunrise_time := inp.sunrise_time,
           sunset_time := inp.sunset_time,
           hourly_forecasts := inp.hourly_forecasts,
           daily_condition_summary := inp.daily_condition_summary,
           daily_temp_max_c := inp.daily_temp_max_c,
           daily_temp_min_c := inp.daily_temp_min_c,
           daily_avg_precip_prob := inp.daily_avg_precip_prob,
           daily_total_precip_mm := inp.daily_total_precip_mm,
           data_source := inp.data_source,
           fetched_at := now }] }

/-- A nullable reference into the `DailyWeather` table resolves: it is null,
or some stored row carries the referenced primary key. -/
def weatherRefOk (weather : List DailyWeather) : Option Nat → Prop
  | none => True
  | some w => ∃ r ∈ weather, r.id = w

instance (weather : List DailyWeather) :
    (o : Option Nat) → Decidable (weatherRefOk weather o)
  | none => isTrue trivial
  | some w => inferInstanceAs (Decidable (∃ r ∈ weather, r.id = w))

/-- Create a `DailyTouristSummary`. Rejected exactly when a stored row
collides on the `unique=True` key `summary_date` (`models.py` line 80), when
a stored row already holds the same non-null one-to-one `weather_summary_fk`
(`OneToOneField`, line 86), or when a non-null `weather_summary_fk` does not
resolve to a stored `DailyWeather` row. -/
def insertDailyTouristSummary (db : DB) (now : Nat)
    (inp : DailyTouristSummaryInput) : Option DB :=
  if (∃ r ∈ db.summaries, r.summary_date = inp.summary_date) ∨
     (∃ r ∈ db.summaries,
        inp.weather_summary_fk ≠ none ∧
        r.weather_summary_fk = inp.weather_summary_fk) ∨
     ¬ weatherRefOk db.weather inp.weather_summary_fk then
    none
  else
    some { db with
      nextId := db.nextId + 1,
      summaries := db.summaries ++
        [{ id := db.nextId,
           summary_date := inp.summary_date,
           total_estimated_flight_passengers :=
             inp.total_estimated_flight_passengers,
           total_estimated_cruise_passengers :=
             inp.total_estimated_cruise_passengers,
           overall_tourist_pressure_index :=
             inp.overall_tourist_pressure_index,
           weather_summary_fk := inp.weather_summary_fk,
           day_type := inp.day_type,
           calculated_at := now }] }

/-- Create a `BeachAttendancePrediction`. Rejected exactly when a stored row
collides on `unique_together = (prediction_date, model_version)`
(`models.py` line 109), when a stored row already holds the same one-to-one
`tourist_summary_fk` (`OneToOneField`, line 97), or when the mandatory
`tourist_summary_fk` does not resolve to a stored `DailyTouristSummary`
row. -/
def insertBeachAttendancePrediction (db : DB) (now : Nat)
    (inp : BeachAttendancePredictionInput) : Option DB :=
  if (∃ r ∈ db.predictions,
        r.prediction_date = inp.prediction_date ∧
        r.model_version = inp.model_version) ∨
     (∃ r ∈ db.predictions,
        r.tourist_summary_fk = inp.tourist_summary_fk) ∨
     ¬ ∃ s ∈ db.summaries, s.id = inp.tourist_summary_fk then
    none
  else
    some { db with
      nextId := db.nextId + 1,
      predictions := db.predictions ++
        [{ id := db.nextId,
           prediction_date := inp.prediction_date,
           tourist_summary_fk := inp.tourist_summary_fk,
           probability_score := inp.probability_score,
           prediction_category := inp.prediction_category,
           input_features_json := inp.input_features_json,
           model_version := inp.model_version,
           predicted_at := now }] }

/-- Delete a `FlightArrival` by primary key. -/
def deleteFlightArrival (db : DB) (fid : Nat) : DB :=
  { db with flights := db.flights.filter (fun r => r.id != fid) }

/-- Delete a `CruiseArrival` by primary key. -/
def deleteCruiseArrival (db : DB) (cid : Nat) : DB :=
  { db with cruises := db.cruises.filter (fun r => r.id != cid) }

/-- `SET_NULL` on one summary: null its weather reference when it points at
the deleted row, leaving every other field unchanged. -/
def nullWeatherRef (wid : Nat) (s : DailyTouristSummary) :
    DailyTouristSummary :=
  if s.weather_summary_fk = some wid then
    { s with weather_summary_fk := none }
  else s

/-- Delete a `DailyWeather` by primary key. Per `on_delete=SET_NULL` on
`DailyTouristSummary.weather_summary_fk` (`models.py` line 86), a summary
referencing the deleted row keeps all its other fields and has its
`weather_summary_fk` set to null. -/
def deleteDailyWeather (db : DB) (wid : Nat) : DB :=
  { db with
    weather := db.weather.filter (fun r => r.id != wid),
    summaries := db.summaries.map (nullWeatherRef wid) }

/-- Delete a `DailyTouristSummary` by primary key. Per `on_delete=CASCADE` on
`BeachAttendancePrediction.tourist_summary_fk` (`models.py` line 97), every
prediction referencing the deleted summary is deleted with it. -/
def deleteDailyTouristSummary (db : DB) (sid : Nat) : DB :=
  { db with
    summaries := db.summaries.filter (fun s => s.id != sid),
    predictions := db.predictions.filter
      (fun p => p.tourist_summary_fk != sid) }

/-- Delete a `BeachAttendancePrediction` by primary key. -/
def deleteBeachAttendancePrediction (db : DB) (pid : Nat) : DB :=
  { db with predictions := db.predictions.filter (fun p => p.id != pid) }

/-- One storage operation: a create or a delete on one of the five tables. -/
inductive Op where
  | insFlight (now : Nat) (inp : FlightArrivalInput)
  | insCruise (now : Nat) (inp : CruiseArrivalInput)
  | insWeather (now : Nat) (inp : DailyWeatherInput)
  | insSummary (now : Nat) (inp : DailyTouristSummaryInput)
  | insPrediction (now : Nat) (inp : BeachAttendancePredictionInput)
  | delFlight (fid : Nat)
  | delCruise (cid : Nat)
  | delWeather (wid : Nat)
  | delSummary (sid : Nat)
  | delPrediction (pid : Nat)
deriving DecidableEq

/-- Apply one operation; a rejected create leaves the state unchanged. -/
def applyOp (db : DB) : Op → DB
  | .insFlight now inp => (insertFlightArrival db now inp).getD db
  | .insCruise now inp => (insertCruiseArrival db now inp).getD db
  | .insWeather now inp => (insertDailyWeather db now inp).getD db
  | .insSummary now inp => (insertDailyTouristSummary db now inp).getD db
  | .insPrediction now inp =>
      (insertBeachAttendancePrediction db now inp).getD db
  | .delFlight fid => deleteFlightArrival db fid
  | .delCruise cid => deleteCruiseArrival db cid
  | .delWeather wid => deleteDailyWeather db wid
  | .delSummary sid => deleteDailyTouristSummary db sid
  | .delPrediction pid => deleteBeachAttendancePrediction db pid

/-- The state reached by running a sequence of operations on the empty
database: exactly the reachable stored states. -/
def runOps (ops : List Op) : DB := List.foldl applyOp emptyDB ops

/-- The storage invariants the declared constraints enforce: fresh primary
keys, per-table primary-key uniqueness, the declared uniqueness keys, the
one-to-one constraints on both references, and referential integrity of
both references. -/
structure WF (db : DB) : Prop where
  weather_fresh : ∀ r ∈ db.weather, r.id < db.nextId
  summaries_fresh : ∀ r ∈ db.summaries, r.id < db.nextId
  predictions_fresh : ∀ r ∈ db.predictions, r.id < db.nextId
  weather_ids : db.weather.Pairwise (fun a b => a.id ≠ b.id)
  summaries_ids : db.summaries.Pairwise (fun a b => a.id ≠ b.id)
  predictions_ids : db.predictions.Pairwise (fun a b => a.id ≠ b.id)
  flights_key : db.flights.Pairwise (fun a b =>
    ¬(a.flight_number = b.flight_number ∧
      a.scheduled_arrival_dt = b.scheduled_arrival_dt ∧
      a.data_source = b.data_source))
  cruises_key : db.cruises.Pairwise (fun a b =>
    ¬(a.ship_name = b.ship_name ∧
      a.scheduled_arrival_date = b.scheduled_arrival_date ∧
      a.data_source = b.data_source))
  weather_key : db.weather.Pairwise (fun a b =>
    ¬(a.forecast_date = b.forecast_date ∧
      a.location_name = b.location_name ∧
      a.data_source = b.data_source))
  summaries_key : db.summaries.Pairwise (fun a b =>
    a.summary_date ≠ b.summary_date)
  predictions_key : db.predictions.Pairwise (fun a b =>
    ¬(a.prediction_date = b.prediction_date ∧
      a.model_version = b.model_version))
  summaries_one : db.summaries.Pairwise (fun a b =>
    ∀ w, a.weather_summary_fk = some w → b.weather_summary_fk ≠ some w)
  predictions_one : db.predictions.Pairwise (fun a b =>
    a.tourist_summary_fk ≠ b.tourist_summary_fk)
  summaries_ref : ∀ s ∈ db.summaries, weatherRefOk db.weather s.weather_summary_fk
  predictions_ref : ∀ p ∈ db.predictions,
    ∃ s ∈ db.summaries, s.id = p.tourist_summary_fk

theorem pairwise_append_one {α : Type} {R : α → α → Prop} {l : List α}
    {x : α} (hl : l.Pairwise R) (hx : ∀ a ∈ l, R a x) :
    (l ++ [x]).Pairwise R := by
  rw [List.pairwise_append]
  exact ⟨hl, List.pairwise_singleton R x, fun a ha b hb => by
    rw [List.mem_singleton] at hb; subst hb; exact hx a ha⟩

theorem mem_append_one {α : Type} {l : List α} {x a : α} :
    a ∈ l ++ [x] ↔ a ∈ l ∨ a = x := by
  simp

theorem WF_emptyDB : WF emptyDB := by
  constructor <;> simp [emptyDB, weatherRefOk]

theorem weatherRefOk_append {weather : List DailyWeather} {x : DailyWeather}
    {o : Option Nat} (h : weatherRefOk weather o) :
    weatherRefOk (weather ++ [x]) o := by
  cases o with
  | none => trivial
  | some w =>
      obtain ⟨r, hr, hid⟩ := h
      exact ⟨r, List.mem_append_left _ hr, hid⟩

theorem WF_insertFlightArrival {db db' : DB} {now : Nat}
    {inp : FlightArrivalInput} (h : WF db)
    (hins : insertFlightArrival db now inp = some db') : WF db' := by
  unfold insertFlightArrival at hins
  split at hins
  · exact Option.noConfusion hins
  · rename_i hguard
    cases hins
    exact ⟨fun r hr => Nat.lt_succ_of_lt (h.weather_fresh r hr),
      fun r hr => Nat.lt_succ_of_lt (h.summaries_fresh r hr),
      fun r hr => Nat.lt_succ_of_lt (h.predictions_fresh r hr),
      h.weather_ids, h.summaries_ids, h.predictions_ids,
      pairwise_append_one h.flights_key
        (fun a ha hcl => hguard ⟨a, ha, hcl⟩),
      h.cruises_key, h.weather_key, h.summaries_key, h.predictions_key,
      h.summaries_one, h.predictions_one, h.summaries_ref,
      h.predictions_ref⟩

theorem WF_insertCruiseArrival {db db' : DB} {now : Nat}
    {inp : CruiseArrivalInput} (h : WF db)
    (hins : insertCruiseArrival db now inp = some db') : WF db' := by
  unfold insertCruiseArrival at hins
  split at hins
  · exact Option.noConfusion hins
  · rename_i hguard
    cases hins
    exact ⟨fun r hr => Nat.lt_succ_of_lt (h.weather_fresh r hr),
      fun r hr => Nat.lt_succ_of_lt (h.summaries_fresh r hr),
      fun r hr => Nat.lt_succ_of_lt (h.predictions_fresh r hr),
      h.weather_ids, h.summaries_ids, h.predictions_ids,
      h.flights_key,
      pairwise_append_one h.cruises_key
        (fun a ha hcl => hguard ⟨a, ha, hcl⟩),
      h.weather_key, h.summaries_key, h.predictions_key,
      h.summaries_one, h.predictions_one, h.summaries_ref,
      h.predictions_ref⟩

theorem WF_insertDailyWeather {db db' : DB} {now : Nat}
    {inp : DailyWeatherInput} (h : WF db)
    (hins : insertDailyWeather db now inp = some db') : WF db' := by
  unfold insertDailyWeather at hins
  split at hins
  · exact Option.noConfusion hins
  · rename_i hguard
    cases hins
    refine ⟨?_, fun r hr => Nat.lt_succ_of_lt (h.summaries_fresh r hr),
      fun r hr => Nat.lt_succ_of_lt (h.predictions_fresh r hr),
      ?_, h.summaries_ids, h.predictions_ids,
      h.flights_key, h.cruises_key,
      pairwise_append_one h.weather_key
        (fun a ha hcl => hguard ⟨a, ha, hcl⟩),
      h.summaries_key, h.predictions_key,
      h.summaries_one, h.predictions_one,
      fun s hs => weatherRefOk_append (h.summaries_ref s hs),
      h.predictions_ref⟩
    · intro r hr
      rcases mem_append_one.mp hr with h' | h'
      · exact Nat.lt_succ_of_lt (h.weather_fresh r h')
      · subst h'
        exact Nat.lt_succ_self _
    · exact pairwise_append_one h.weather_ids
        (fun a ha => Nat.ne_of_lt (h.weather_fresh a ha))

theorem WF_insertDailyTouristSummary {db db' : DB} {now : Nat}
    {inp : DailyTouristSummaryInput} (h : WF db)
    (hins : insertDailyTouristSummary db now inp = some db') : WF db' := by
  unfold insertDailyTouristSummary at hins
  split at hins
  · exact Option.noConfusion hins
  · rename_i hguard
    have hdate : ¬ ∃ r ∈ db.summaries, r.summary_date = inp.summary_date :=
      fun hx => hguard (Or.inl hx)
    have hone : ¬ ∃ r ∈ db.summaries,
        inp.weather_summary_fk ≠ none ∧
        r.weather_summary_fk = inp.weather_summary_fk :=
      fun hx => hguard (Or.inr (Or.inl hx))
    have href : weatherRefOk db.weather inp.weather_summary_fk := by
      by_contra hx
      exact hguard (Or.inr (Or.inr hx))
    cases hins
    refine ⟨fun r hr => Nat.lt_succ_of_lt (h.weather_fresh r hr), ?_,
      fun r hr => Nat.lt_succ_of_lt (h.predictions_fresh r hr),
      h.weather_ids, ?_, h.predictions_ids,
      h.flights_key, h.cruises_key, h.weather_key,
      pairwise_append_one h.summaries_key
        (fun a ha hcl => hdate ⟨a, ha, hcl⟩),
      h.predictions_key, ?_, h.predictions_one, ?_, ?_⟩
    · intro r hr
      rcases mem_append_one.mp hr with h' | h'
      · exact Nat.lt_succ_of_lt (h.summaries_fresh r h')
      · subst h'
        exact Nat.lt_succ_self _
    · exact pairwise_append_one h.summaries_ids
        (fun a ha => Nat.ne_of_lt (h.summaries_fresh a ha))
    · refine pairwise_append_one h.summaries_one ?_
      intro a ha w haw hn
      have hn' : inp.weather_summary_fk = some w := hn
      exact hone ⟨a, ha, by simp [hn'], by rw [haw, hn']⟩
    · intro s hs
      rcases mem_append_one.mp hs with h' | h'
      · exact h.summaries_ref s h'
      · subst h'
        exact href
    · intro p hp
      obtain ⟨s, hs, hid⟩ := h.predictions_ref p hp
      exact ⟨s, List.mem_append_left _ hs, hid⟩

theorem WF_insertBeachAttendancePrediction {db db' : DB} {now : Nat}
    {inp : BeachAttendancePredictionInput} (h : WF db)
    (hins : insertBeachAttendancePrediction db now inp = some db') :
    WF db' := by
  unfold insertBeachAttendancePrediction at hins
  split at hins
  · exact Option.noConfusion hins
  · rename_i hguard
    have hkey : ¬ ∃ r ∈ db.predictions,
        r.prediction_date = inp.prediction_date ∧
        r.model_version = inp.model_version :=
      fun hx => hguard (Or.inl hx)
    have hone : ¬ ∃ r ∈ db.predictions,
        r.tourist_summary_fk = inp.tourist_summary_fk :=
      fun hx => hguard (Or.inr (Or.inl hx))
    have href : ∃ s ∈ db.summaries, s.id = inp.tourist_summary_fk := by
      by_contra hx
      exact hguard (Or.inr (Or.inr hx))
    cases hins
    refine ⟨fun r hr => Nat.lt_succ_of_lt (h.weather_fresh r hr),
      fun r hr => Nat.lt_succ_of_lt (h.summaries_fresh r hr), ?_,
      h.weather_ids, h.summaries_ids, ?_,
      h.flights_key, h.cruises_key, h.weather_key, h.summaries_key,
      pairwise_append_one h.predictions_key
        (fun a ha hcl => hkey ⟨a, ha, hcl⟩),
      h.summaries_one,
      pairwise_append_one h.predictions_one
        (fun a ha hcl => hone ⟨a, ha, hcl⟩),
      h.summaries_ref, ?_⟩
    · intro r hr
      rcases mem_append_one.mp hr with h' | h'
      · exact Nat.lt_succ_of_lt (h.predictions_fresh r h')
      · subst h'
        exact Nat.lt_succ_self _
    · exact pairwise_append_one h.predictions_ids
        (fun a ha => Nat.ne_of_lt (h.predictions_fresh a ha))
    · intro p hp
      rcases mem_append_one.mp hp with h' | h'
      · exact h.predictions_ref p h'
      · subst h'
        exact href

theorem nullWeatherRef_frame (wid : Nat) (s : DailyTouristSummary) :
    (nullWeatherRef wid s).id = s.id ∧
    (nullWeatherRef wid s).summary_date = s.summary_date ∧
    (nullWeatherRef wid s).total_estimated_flight_passengers =
      s.total_estimated_flight_passengers ∧
    (nullWeatherRef wid s).total_estimated_cruise_passengers =
      s.total_estimated_cruise_passengers ∧
    (nullWeatherRef wid s).overall_tourist_pressure_index =
      s.overall_tourist_pressure_index ∧
    (nullWeatherRef wid s).day_type = s.day_type ∧
    (nullWeatherRef wid s).calculated_at = s.calculated_at := by
  unfold nullWeatherRef
  split <;> simp

theorem nullWeatherRef_fk (wid : Nat) (s : DailyTouristSummary) :
    (nullWeatherRef wid s).weather_summary_fk =
      (if s.weather_summary_fk = some wid then none
       else s.weather_summary_fk) := by
  unfold nullWeatherRef
  split <;> simp

theorem WF_deleteFlightArrival {db : DB} (h : WF db) (fid : Nat) :
    WF (deleteFlightArrival db fid) := by
  unfold deleteFlightArrival
  exact ⟨h.weather_fresh, h.summaries_fresh, h.predictions_fresh,
    h.weather_ids, h.summaries_ids, h.predictions_ids,
    h.flights_key.filter _, h.cruises_key, h.weather_key,
    h.summaries_key, h.predictions_key, h.summaries_one, h.predictions_one,
    h.summaries_ref, h.predictions_ref⟩

theorem WF_deleteCruiseArrival {db : DB} (h : WF db) (cid : Nat) :
    WF (deleteCruiseArrival db cid) := by
  unfold deleteCruiseArrival
  exact ⟨h.weather_fresh, h.summaries_fresh, h.predictions_fresh,
    h.weather_ids, h.summaries_ids, h.predictions_ids,
    h.flights_key, h.cruises_key.filter _, h.weather_key,
    h.summaries_key, h.predictions_key, h.summaries_one, h.predictions_one,
    h.summaries_ref, h.predictions_ref⟩

theorem WF_deleteBeachAttendancePrediction {db : DB} (h : WF db)
    (pid : Nat) : WF (deleteBeachAttendancePrediction db pid) := by
  unfold deleteBeachAttendancePrediction
  exact ⟨h.weather_fresh, h.summaries_fresh,
    fun r hr => h.predictions_fresh r (List.mem_of_mem_filter hr),
    h.weather_ids, h.summaries_ids, h.predictions_ids.filter _,
    h.flights_key, h.cruises_key, h.weather_key,
    h.summaries_key, h.predictions_key.filter _, h.summaries_one,
    h.predictions_one.filter _, h.summaries_ref,
    fun p hp => h.predictions_ref p (List.mem_of_mem_filter hp)⟩

theorem WF_deleteDailyWeather {db : DB} (h : WF db) (wid : Nat) :
    WF (deleteDailyWeather db wid) := by
  unfold deleteDailyWeather
  refine ⟨fun r hr => h.weather_fresh r (List.mem_of_mem_filter hr), ?_,
    h.predictions_fresh,
    h.weather_ids.filter _, ?_, h.predictions_ids,
    h.flights_key, h.cruises_key, h.weather_key.filter _,
    ?_, h.predictions_key, ?_, h.predictions_one, ?_, ?_⟩
  · intro r hr
    obtain ⟨s, hs, rfl⟩ := List.mem_map.mp hr
    rw [(nullWeatherRef_frame wid s).1]
    exact h.summaries_fresh s hs
  · refine h.summaries_ids.map (nullWeatherRef wid) ?_
    intro a b hab
    rw [(nullWeatherRef_frame wid a).1, (nullWeatherRef_frame wid b).1]
    exact hab
  · refine h.summaries_key.map (nullWeatherRef wid) ?_
    intro a b hab
    rw [(nullWeatherRef_frame wid a).2.1, (nullWeatherRef_frame wid b).2.1]
    exact hab
  · refine h.summaries_one.map (nullWeatherRef wid) ?_
    intro a b hab w haw hbw
    rw [nullWeatherRef_fk] at haw hbw
    by_cases ha1 : a.weather_summary_fk = some wid
    · rw [if_pos ha1] at haw
      exact Option.noConfusion haw
    · rw [if_neg ha1] at haw
      by_cases hb1 : b.weather_summary_fk = some wid
      · rw [if_pos hb1] at hbw
        exact Option.noConfusion hbw
      · rw [if_neg hb1] at hbw
        exact hab w haw hbw
  · intro s' hs'
    obtain ⟨s, hs, rfl⟩ := List.mem_map.mp hs'
    rw [nullWeatherRef_fk]
    by_cases hc : s.weather_summary_fk = some wid
    · rw [if_pos hc]
      trivial
    · rw [if_neg hc]
      have hok := h.summaries_ref s hs
      cases hfk : s.weather_summary_fk with
      | none => trivial
      | some w =>
          rw [hfk] at hok hc
          obtain ⟨r, hr, hid⟩ := hok
          have hw : w ≠ wid := fun he => hc (by rw [he])
          refine ⟨r, List.mem_filter.mpr ⟨hr, ?_⟩, hid⟩
          simpa [bne_iff_ne, hid] using hw
  · intro p hp
    obtain ⟨s, hs, hid⟩ := h.predictions_ref p hp
    refine ⟨nullWeatherRef wid s, List.mem_map_of_mem _ hs, ?_⟩
    rw [(nullWeatherRef_frame wid s).1]
    exact hid

theorem WF_deleteDailyTouristSummary {db : DB} (h : WF db) (sid : Nat) :
    WF (deleteDailyTouristSummary db sid) := by
  unfold deleteDailyTouristSummary
  refine ⟨h.weather_fresh,
    fun r hr => h.summaries_fresh r (List.mem_of_mem_filter hr),
    fun r hr => h.predictions_fresh r (List.mem_of_mem_filter hr),
    h.weather_ids, h.summaries_ids.filter _, h.predictions_ids.filter _,
    h.flights_key, h.cruises_key, h.weather_key,
    h.summaries_key.filter _, h.predictions_key.filter _,
    h.summaries_one.filter _, h.predictions_one.filter _,
    fun s hs => h.summaries_ref s (List.mem_of_mem_filter hs), ?_⟩
  intro p hp
  obtain ⟨hp', hpfk⟩ := List.mem_filter.mp hp
  obtain ⟨s, hs, hid⟩ := h.predictions_ref p hp'
  have hne : p.tourist_summary_fk ≠ sid := by
    simpa [bne_iff_ne] using hpfk
  refine ⟨s, List.mem_filter.mpr ⟨hs, ?_⟩, hid⟩
  simpa [bne_iff_ne, hid] using hne

theorem WF_applyOp {db : DB} (h : WF db) (op : Op) : WF (applyOp db op) := by
  cases op with
  | insFlight now inp =>
      show WF ((insertFlightArrival db now inp).getD db)
      cases hins : insertFlightArrival db now inp with
      | none => exact h
      | some db' => exact WF_insertFlightArrival h hins
  | insCruise now inp =>
      show WF ((insertCruiseArrival db now inp).getD db)
      cases hins : insertCruiseArrival db now inp with
      | none => exact h
      | some db' => exact WF_insertCruiseArrival h hins
  | insWeather now inp =>
      show WF ((insertDailyWeather db now inp).getD db)
      cases hins : insertDailyWeather db now inp with
      | none => exact h
      | some db' => exact WF_insertDailyWeather h hins
  | insSummary now inp =>
      show WF ((insertDailyTouristSummary db now inp).getD db)
      cases hins : insertDailyTouristSummary db now inp with
      | none => exact h
      | some db' => exact WF_insertDailyTouristSummary h hins
  | insPrediction now inp =>
      show WF ((insertBeachAttendancePrediction db now inp).getD db)
      cases hins : insertBeachAttendancePrediction db now inp with
      | none => exact h
      | some db' => exact WF_insertBeachAttendancePrediction h hins
  | delFlight fid => exact WF_deleteFlightArrival h fid
  | delCruise cid => exact WF_deleteCruiseArrival h cid
  | delWeather wid => exact WF_deleteDailyWeather h wid
  | delSummary sid => exact WF_deleteDailyTouristSummary h sid
  | delPrediction pid => exact WF_deleteBeachAttendancePrediction h pid

theorem WF_foldl {db : DB} (h : WF db) (ops : List Op) :
    WF (List.foldl applyOp db ops) := by
  induction ops generalizing db with
  | nil => exact h
  | cons op ops ih => exact ih (WF_applyOp h op)

theorem WF_runOps (ops : List Op) : WF (runOps ops) :=
  WF_foldl WF_emptyDB ops

/-- A sample summary creation (no weather reference). -/
def sampleSummaryInput : DailyTouristSummaryInput :=
  { summary_date := 10,
    total_estimated_flight_passengers := 1200,
    total_estimated_cruise_passengers := 3000,
    overall_tourist_pressure_index := some 7,
    weather_summary_fk := none,
    day_type := some "Weekend" }

/-- A second sample summary creation, for a different date. -/
def sampleSummaryInput2 : DailyTouristSummaryInput :=
  { summary_date := 11,
    total_estimated_flight_passengers := 800,
    total_estimated_cruise_passengers := 0,
    overall_tourist_pressure_index := none,
    weather_summary_fk := none,
    day_type := some "Weekday" }

/-- A sample prediction creation whose `probability_score` lies outside
`[0, 1]` and whose `tourist_summary_fk` is the first auto-assigned key. -/
def samplePredictionInput : BeachAttendancePredictionInput :=
  { prediction_date := 10,
    tourist_summary_fk := 0,
    probability_score := 2,
    prediction_category := some "High",
    input_features_json := "",
    model_version := some "v1" }

/-- A second sample prediction creation: the same `prediction_date`, a
different `model_version`, referencing the second summary. -/
def samplePredictionInput2 : BeachAttendancePredictionInput :=
  { prediction_date := 10,
    tourist_summary_fk := 1,
    probability_score := 0,
    prediction_category := some "Low",
    input_features_json := "",
    model_version := some "v2" }

/-- Create one summary, then one prediction referencing it. -/
def opsOneSummaryOnePrediction : List Op :=
  [Op.insSummary 0 sampleSummaryInput,
   Op.insPrediction 0 samplePredictionInput]

/-- Create two summaries, then two predictions for the same
`prediction_date` under different `model_version`s. -/
def opsTwoPredictionsSameDate : List Op :=
  [Op.insSummary 0 sampleSummaryInput,
   Op.insSummary 0 sampleSummaryInput2,
   Op.insPrediction 0 samplePredictionInput,
   Op.insPrediction 0 samplePredictionInput2]

/-- C1: Creating a `FlightArrival` succeeds if and only if no stored
`FlightArrival` carries the same `(flight_number, scheduled_arrival_dt,
data_source)` triple, and a creation that collides with a stored triple is
rejected and leaves the stored state unchanged. -/
theorem flightArrival_insert_unique_key (db : DB) (now : Nat)
    (inp : FlightArrivalInput) :
    ((insertFlightArrival db now inp).isSome ↔
      ¬ ∃ r ∈ db.flights,
          r.flight_number = inp.flight_number ∧
          r.scheduled_arrival_dt = inp.scheduled_arrival_dt ∧
          r.data_source = inp.data_source) ∧
    ((∃ r ∈ db.flights,
        r.flight_number = inp.flight_number ∧
        r.scheduled_arrival_dt = inp.scheduled_arrival_dt ∧
        r.data_source = inp.data_source) →
      applyOp db (Op.insFlight now inp) = db) := by
  constructor
  · unfold insertFlightArrival
    split <;> simp_all
  · intro hcl
    show (insertFlightArrival db now inp).getD db = db
    unfold insertFlightArrival
    rw [if_pos hcl]
    rfl

/-- C2: In every reachable state, each `BeachAttendancePrediction`
references exactly one stored `DailyTouristSummary` (the mandatory reference
resolves, and to a single row); and deleting a `DailyTouristSummary`
cascades, so that afterwards no prediction references the deleted key. -/
theorem prediction_references_existing_summary (ops : List Op) (sid : Nat) :
    ((runOps ops).predictions.Forall (fun p =>
        ∃ s ∈ (runOps ops).summaries,
          s.id = p.tourist_summary_fk ∧
          ∀ t ∈ (runOps ops).summaries,
            t.id = p.tourist_summary_fk → t = s)) ∧
    ((deleteDailyTouristSummary (runOps ops) sid).predictions.Forall
        (fun p => p.tourist_summary_fk ≠ sid)) := by
  have h := WF_runOps ops
  have hsym : Symmetric (fun a b : DailyTouristSummary => a.id ≠ b.id) :=
    fun _ _ hab => Ne.symm hab
  constructor
  · rw [List.forall_iff_forall_mem]
    intro p hp
    obtain ⟨s, hs, hid⟩ := h.predictions_ref p hp
    refine ⟨s, hs, hid, ?_⟩
    intro t ht htid
    by_contra hne
    exact h.summaries_ids.forall hsym ht hs hne (htid.trans hid.symm)
  · rw [List.forall_iff_forall_mem]
    intro p hp
    have hp' : p ∈ (runOps ops).predictions.filter
        (fun q => q.tourist_summary_fk != sid) := hp
    simpa [bne_iff_ne] using (List.mem_filter.mp hp').2

/-- C3: `weather_summary_fk` is optional, and deleting a `DailyWeather`
deletes no summary: afterwards the summary table has the same length, each
summary keeps every field except that a reference to the deleted row is
nulled; and a creation with a null weather reference is only ever rejected
for a `summary_date` collision. -/
theorem weather_delete_nulls_reference_only (db : DB) (wid : Nat)
    (now : Nat) (inp : DailyTouristSummaryInput) :
    ((deleteDailyWeather db wid).summaries.length =
      db.summaries.length) ∧
    (db.summaries.Forall (fun s =>
        ∃ s' ∈ (deleteDailyWeather db wid).summaries,
          s'.id = s.id ∧
          s'.summary_date = s.summary_date ∧
          s'.total_estimated_flight_passengers =
            s.total_estimated_flight_passengers ∧
          s'.total_estimated_cruise_passengers =
            s.total_estimated_cruise_passengers ∧
          s'.overall_tourist_pressure_index =
            s.overall_tourist_pressure_index ∧
          s'.day_type = s.day_type ∧
          s'.calculated_at = s.calculated_at ∧
          s'.weather_summary_fk =
            (if s.weather_summary_fk = some wid then none
             else s.weather_summary_fk))) ∧
    (inp.weather_summary_fk = none →
      ((insertDailyTouristSummary db now inp).isSome ↔
        ¬ ∃ r ∈ db.summaries, r.summary_date = inp.summary_date)) := by
  refine ⟨?_, ?_, ?_⟩
  · show (db.summaries.map (nullWeatherRef wid)).length = db.summaries.length
    exact List.length_map _ _
  · rw [List.forall_iff_forall_mem]
    intro s hs
    refine ⟨nullWeatherRef wid s, List.mem_map_of_mem _ hs, ?_⟩
    obtain ⟨h1, h2, h3, h4, h5, h6, h7⟩ := nullWeatherRef_frame wid s
    exact ⟨h1, h2, h3, h4, h5, h6, h7, nullWeatherRef_fk wid s⟩
  · intro hfk
    unfold insertDailyTouristSummary
    by_cases hA : ∃ r ∈ db.summaries, r.summary_date = inp.summary_date
    · rw [if_pos (Or.inl hA)]
      simp [hA]
    · have hg : ¬((∃ r ∈ db.summaries,
          r.summary_date = inp.summary_date) ∨
          (∃ r ∈ db.summaries,
            inp.weather_summary_fk ≠ none ∧
            r.weather_summary_fk = inp.weather_summary_fk) ∨
          ¬ weatherRefOk db.weather inp.weather_summary_fk) := by
        rintro (hx | hx | hx)
        · exact hA hx
        · obtain ⟨r, _, hne, _⟩ := hx
          exact hne hfk
        · rw [hfk] at hx
          exact hx trivial
      rw [if_neg hg]
      simp [hA]

/-- C4: In every reachable state, no two stored `DailyTouristSummary` rows
share a `summary_date`: the date alone is a unique key. -/
theorem summary_date_unique_invariant (ops : List Op) :
    (runOps ops).summaries.Pairwise
      (fun a b => a.summary_date ≠ b.summary_date) :=
  (WF_runOps ops).summaries_key

/-- C5: In every reachable state, no two stored `BeachAttendancePrediction`
rows share the same `(prediction_date, model_version)` pair: two predictions
for one date must differ in `model_version`. -/
theorem prediction_key_unique_invariant (ops : List Op) :
    (runOps ops).predictions.Pairwise (fun a b =>
      ¬(a.prediction_date = b.prediction_date ∧
        a.model_version = b.model_version)) :=
  (WF_runOps ops).predictions_key

/-- C6: In every reachable state, no two stored `DailyWeather` rows share
the same `(forecast_date, location_name, data_source)` triple. -/
theorem weather_key_unique_invariant (ops : List Op) :
    (runOps ops).weather.Pairwise (fun a b =>
      ¬(a.forecast_date = b.forecast_date ∧
        a.location_name = b.location_name ∧
        a.data_source = b.data_source)) :=
  (WF_runOps ops).weather_key

/-- C7: In every reachable state, no two stored `CruiseArrival` rows share
the same `(ship_name, scheduled_arrival_date, data_source)` triple. -/
theorem cruise_key_unique_invariant (ops : List Op) :
    (runOps ops).cruises.Pairwise (fun a b =>
      ¬(a.ship_name = b.ship_name ∧
        a.scheduled_arrival_date = b.scheduled_arrival_date ∧
        a.data_source = b.data_source)) :=
  (WF_runOps ops).cruises_key

/-- C8 counterexample: a creation can fail without any uniqueness-constraint
collision. On the empty database (which stores no row at all, so no field
value collides with any declared uniqueness key of a stored row), creating a
`BeachAttendancePrediction` whose mandatory `tourist_summary_fk` resolves to
no stored summary is rejected. -/
theorem insert_rejected_without_key_collision :
    insertBeachAttendancePrediction emptyDB 0 samplePredictionInput =
      none ∧
    emptyDB.predictions = [] ∧ emptyDB.summaries = [] := by
  refine ⟨rfl, rfl, rfl⟩

/-- C8 (amended): a creation can fail only through a storage-constraint
violation, which for the three reference-free tables is exactly a collision
on the declared uniqueness key, and for `DailyTouristSummary` and
`BeachAttendancePrediction` is exactly a collision on a declared uniqueness
key (including the one-to-one reference columns) or a non-null reference
that resolves to no stored row. -/
theorem insert_failure_characterization (db : DB) (now : Nat)
    (f : FlightArrivalInput) (c : CruiseArrivalInput)
    (w : DailyWeatherInput) (s : DailyTouristSummaryInput)
    (p : BeachAttendancePredictionInput) :
    (insertFlightArrival db now f = none ↔
      ∃ r ∈ db.flights,
        r.flight_number = f.flight_number ∧
        r.scheduled_arrival_dt = f.scheduled_arrival_dt ∧
        r.data_source = f.data_source) ∧
    (insertCruiseArrival db now c = none ↔
      ∃ r ∈ db.cruises,
        r.ship_name = c.ship_name ∧
        r.scheduled_arrival_date = c.scheduled_arrival_date ∧
        r.data_source = c.data_source) ∧
    (insertDailyWeather db now w = none ↔
      ∃ r ∈ db.weather,
        r.forecast_date = w.forecast_date ∧
        r.location_name = w.location_name ∧
        r.data_source = w.data_source) ∧
    (insertDailyTouristSummary db now s = none ↔
      (∃ r ∈ db.summaries, r.summary_date = s.summary_date) ∨
      (∃ r ∈ db.summaries,
        s.weather_summary_fk ≠ none ∧
        r.weather_summary_fk = s.weather_summary_fk) ∨
      ¬ weatherRefOk db.weather s.weather_summary_fk) ∧
    (insertBeachAttendancePrediction db now p = none ↔
      (∃ r ∈ db.predictions,
        r.prediction_date = p.prediction_date ∧
        r.model_version = p.model_version) ∨
      (∃ r ∈ db.predictions,
        r.tourist_summary_fk = p.tourist_summary_fk) ∨
      ¬ ∃ r ∈ db.summaries, r.id = p.tourist_summary_fk) := by
  refine ⟨?_, ?_, ?_, ?_, ?_⟩
  · unfold insertFlightArrival
    split <;> simp_all
  · unfold insertCruiseArrival
    split <;> simp_all
  · unfold insertDailyWeather
    split <;> simp_all
  · unfold insertDailyTouristSummary
    split <;> simp_all
  · unfold insertBeachAttendancePrediction
    split <;> simp_all

/-- C9: In every reachable state both references are one-to-one (no two
summaries share a non-null `weather_summary_fk`, no two predictions share a
`tourist_summary_fk`), and with `summary_date` unique this means at most one
prediction is linked to the summary of a given date; yet the
`(prediction_date, model_version)` key alone does admit several predictions
for one date, witnessed by a reachable state holding two distinct
predictions with the same `prediction_date`. -/
theorem one_to_one_reference_invariant (ops : List Op) :
    ((runOps ops).summaries.Pairwise (fun a b =>
        ∀ w, a.weather_summary_fk = some w →
          b.weather_summary_fk ≠ some w)) ∧
    ((runOps ops).predictions.Pairwise (fun a b =>
        a.tourist_summary_fk ≠ b.tourist_summary_fk)) ∧
    ((runOps ops).predictions.Forall (fun p =>
        (runOps ops).predictions.Forall (fun q =>
          (runOps ops).summaries.Forall (fun s =>
            (runOps ops).summaries.Forall (fun t =>
              s.summary_date = t.summary_date →
              p.tourist_summary_fk = s.id →
              q.tourist_summary_fk = t.id → p = q))))) ∧
    (∃ p ∈ (runOps opsTwoPredictionsSameDate).predictions,
       ∃ q ∈ (runOps opsTwoPredictionsSameDate).predictions,
         p ≠ q ∧ p.prediction_date = q.prediction_date) := by
  have h := WF_runOps ops
  refine ⟨h.summaries_one, h.predictions_one, ?_, by decide⟩
  simp only [List.forall_iff_forall_mem]
  intro p hp q hq s hs t ht hdate hps hqt
  have hst : s = t := by
    by_contra hne
    exact h.summaries_key.forall
      (fun _ _ hab => Ne.symm hab) hs ht hne hdate
  have hfk : p.tourist_summary_fk = q.tourist_summary_fk := by
    rw [hps, hqt, hst]
  by_contra hne
  exact h.predictions_one.forall
    (fun _ _ hab => Ne.symm hab) hp hq hne hfk

/-- C10: the schema puts no range constraint on `probability_score`: whether
a creation succeeds never depends on the score, a successful creation stores
the score unchanged, and a reachable state holds a prediction whose stored
score lies outside `[0, 1]`. -/
theorem probability_score_unconstrained (db : DB) (now : Nat)
    (inp : BeachAttendancePredictionInput) (x : Rat) :
    ((insertBeachAttendancePrediction db now inp).isSome ↔
      (insertBeachAttendancePrediction db now
        { inp with probability_score := x }).isSome) ∧
    (∀ db2, insertBeachAttendancePrediction db now inp = some db2 →
      ∃ q ∈ db2.predictions,
        q.probability_score = inp.probability_score) ∧
    (∃ q ∈ (runOps opsOneSummaryOnePrediction).predictions,
       q.probability_score = samplePredictionInput.probability_score ∧
       ¬(0 ≤ q.probability_score ∧ q.probability_score ≤ 1)) := by
  refine ⟨?_, ?_, by decide⟩
  · unfold insertBeachAttendancePrediction
    by_cases hg : (∃ r ∈ db.predictions,
        r.prediction_date = inp.prediction_date ∧
        r.model_version = inp.model_version) ∨
      (∃ r ∈ db.predictions,
        r.tourist_summary_fk = inp.tourist_summary_fk) ∨
      ¬ ∃ r ∈ db.summaries, r.id = inp.tourist_summary_fk
    · rw [if_pos hg, if_pos hg]
    · rw [if_neg hg, if_neg hg]
      simp
  intro db2 hins
  unfold insertBeachAttendancePrediction at hins
  split at hins
  · exact Option.noConfusion hins
  · cases hins
    exact ⟨_, List.mem_append_right _ (List.mem_singleton_self _), rfl⟩

end TourismData
